import Mathlib

/-!
Verification of the Stashly organizational data engine: the folder tree
(cycle prevention, cascade delete) and the polymorphic resource store with
its filter/pagination query builder, shallowly embedded from
`src/server/controllers/folderController.js`,
`src/server/controllers/resourceController.js`, and the Mongoose models
(Folder, Resource schemas).

Mongo documents are modelled as Lean structures, a database as lists of
documents, and each controller action as a pure function from a database
and request to an outcome paired with the next database.  Mongoose setter
and validator semantics are modelled explicitly: `trim`/`lowercase`
setters apply at assignment, and custom validators are skipped when the
value is undefined (only `required` runs on undefined values).
-/

namespace Stashly

/-! ### JavaScript string primitives (`trim`, `toLowerCase`) -/

def isJsSpace (c : Char) : Bool :=
  c = ' ' || c = '\t' || c = '\n' || c = '\r' || c = '\x0c' || c = '\x0b'

/-- Model of JavaScript `String.prototype.trim`. -/
def jsTrim (s : String) : String :=
  ⟨((s.data.dropWhile isJsSpace).reverse.dropWhile isJsSpace).reverse⟩

/-- Model of JavaScript `String.prototype.toLowerCase` (ASCII range). -/
def jsToLower (s : String) : String :=
  ⟨s.data.map Char.toLower⟩

/-- Mongoose `lowercase: true, trim: true` setter pair, as applied to each
tag element and to the tag filter in `getResources` (`t.toLowerCase().trim()`). -/
def normalizeTag (t : String) : String :=
  jsTrim (jsToLower t)

/-! ### A stable insertion sort, standing for the storage engine's `sort()` -/

def insertBy (le : α → α → Bool) (x : α) : List α → List α
  | [] => [x]
  | y :: ys => if le x y then x :: y :: ys else y :: insertBy le x ys

def sortBy (le : α → α → Bool) : List α → List α
  | [] => []
  | x :: xs => insertBy le x (sortBy le xs)

/-! ### Data model (Mongoose schemas from the Folder and Resource models) -/

/-- The `RESOURCE_TYPES` closed set from the Resource model. -/
def RESOURCE_TYPES : List String := ["bookmark", "prompt", "snippet", "document", "note"]

/-- A document of the `Folder` collection. -/
structure Folder where
  id : Nat
  userId : Nat
  parentId : Option Nat := none
  name : String
  color : String := "#3B82F6"
  icon : String := "folder"
  sortOrder : Int := 0
deriving Repr, DecidableEq

/-- A document of the `Resource` collection (polymorphic: one flat record,
optional fields validated conditionally on `type`).  `Option` distinguishes
an absent (undefined) field from a present value. -/
structure Resource where
  id : Nat
  userId : Nat
  type : String
  folderId : Option Nat := none
  title : Option String := none
  annotations : Option String := none
  tags : List String := []
  favorite : Bool := false
  url : Option String := none
  favicon : Option String := none
  platform : Option String := none
  category : Option String := none
  codeLanguage : Option String := none
  fileUrl : Option String := none
  fileName : Option String := none
  fileSize : Nat := 0
  fileType : Option String := none
  cloudinaryPublicId : Option String := none
  content : Option String := none
  description : Option String := none
  createdAt : Nat := 0
deriving Repr, DecidableEq

/-- The persistent store: the two collections the engine touches. -/
structure DB where
  folders : List Folder
  resources : List Resource
deriving Repr, DecidableEq

/-- Model of `Folder.findOne` scoped by id and `userId`. -/
def findFolder (db : DB) (fid uid : Nat) : Option Folder :=
  db.folders.find? (fun f => f.id == fid && f.userId == uid)

/-- Model of `Resource.findOne` scoped by id and `userId`. -/
def findResource (db : DB) (rid uid : Nat) : Option Resource :=
  db.resources.find? (fun r => r.id == rid && r.userId == uid)

/-! ### Folder model: statics, instance methods, save pipeline -/

/-- Model of `Folder.isEmpty`: no resources reference the folder and no
folders have it as `parentId` (both counts unscoped by user, as in the source). -/
def folderIsEmpty (db : DB) (folderId : Nat) : Bool :=
  db.resources.countP (fun r => r.folderId == some folderId) == 0 &&
  db.folders.countP (fun f => f.parentId == some folderId) == 0

/-- One BFS step: ids of the folders whose parent is `pid`. -/
def childIds (db : DB) (pid : Nat) : List Nat :=
  (db.folders.filter (fun f => f.parentId == some pid)).map (·.id)

/-- The queue loop of `folderSchema.methods.getDescendantIds`, with explicit
fuel standing in for the loop's termination (in an acyclic store each folder
is enqueued at most once, so `db.folders.length + 1` iterations suffice). -/
def bfsDescendants (db : DB) : Nat → List Nat → List Nat
  | 0, _ => []
  | _ + 1, [] => []
  | fuel + 1, currentId :: queue =>
    let children := childIds db currentId
    children ++ bfsDescendants db fuel (queue ++ children)

/-- Model of `folderSchema.methods.getDescendantIds`: breadth-first list of all
transitive child folder ids. -/
def getDescendantIds (db : DB) (fid : Nat) : List Nat :=
  bfsDescendants db (db.folders.length + 1) [fid]

/-- Mongoose validation of a Folder document (`name` required, max 100). -/
def folderValidationErrors (f : Folder) : List String :=
  (if f.name = "" then ["Folder name is required"] else []) ++
  (if f.name.length > 100 then ["Folder name cannot exceed 100 characters"] else [])

/-- The `while (currentParent)` walk of `folderSchema.pre('save')`: climb the
stored ancestor chain of the new parent, erroring when an id repeats.  The
visited set makes the JS loop terminate after at most `db.folders.length + 1`
new ids, which bounds the fuel. -/
def circularWalk (db : DB) : Nat → List Nat → Option Nat → Bool
  | _, _, none => false
  | 0, _, some _ => true
  | fuel + 1, visited, some pid =>
    match db.folders.find? (fun f => f.id == pid) with
    | none => false
    | some parent =>
      if visited.contains parent.id then true
      else circularWalk db fuel (parent.id :: visited) parent.parentId

/-- The pre-save hook guard: runs only when `parentId` is set and was
modified; starts with the document's own id in the visited set. -/
def folderPreSaveError (db : DB) (f : Folder) (modifiedParent : Bool) : Bool :=
  match f.parentId with
  | none => false
  | some _ => modifiedParent && circularWalk db (db.folders.length + 2) [f.id] f.parentId

/-- The unique compound index on `userId`, `parentId`, `name`: a save raises
`11000` when another document carries the same triple. -/
def folderDuplicate (db : DB) (f : Folder) : Bool :=
  db.folders.any (fun o => o.id != f.id && o.userId == f.userId &&
    o.parentId == f.parentId && o.name == f.name)

inductive FolderSaveErr where
  | validation (errors : List String)
  | circular
  | duplicate
deriving Repr, DecidableEq

/-- Model of `folder.save` on an existing document: validation, then the
`pre('save')` hook, then the unique-index write. -/
def saveFolder (db : DB) (f : Folder) (modifiedParent : Bool) : Except FolderSaveErr DB :=
  if folderValidationErrors f ≠ [] then .error (.validation (folderValidationErrors f))
  else if folderPreSaveError db f modifiedParent then .error .circular
  else if folderDuplicate db f then .error .duplicate
  else .ok { db with folders := db.folders.map (fun o => if o.id = f.id then f else o) }

/-! ### Controller outcomes -/

/-- The distinguishable controller responses, keyed by the spec's error
taxonomy (each maps to one status/message pair in the source). -/
inductive Outcome where
  | okFolder (folder : Folder)
  | okResource (resource : Resource)
  | notFound (message : String)
  | invalidOperation (message : String)
  | notEmpty (message : String)
  | conflict (message : String)
  | validationFailed (errors : List String)
  | invalidType (message : String)
  | serverError (message : String)
deriving Repr, DecidableEq

/-! ### Folder controller -/

/-- Controller `getFolderById`: read-only lookup. -/
def getFolderById (db : DB) (uid fid : Nat) : Outcome :=
  match findFolder db fid uid with
  | none => .notFound "Folder not found"
  | some folder => .okFolder folder

/-- Body of `PUT /api/folders/:id`; `none` is an absent key and
`some none` is the literal string `'null'` in the `parentId` position. -/
structure UpdateFolderReq where
  name : Option String := none
  parentId : Option (Option Nat) := none
  color : Option String := none
  icon : Option String := none
  sortOrder : Option Int := none
deriving Repr, DecidableEq

/-- The guard `parentId !== folder.parentId?.toString()` compares the raw
request string with the stored id: only two present, equal ids compare equal
(the string `'null'` never equals an id or `undefined`). -/
def parentParamMatchesCurrent : Option Nat → Option Nat → Bool
  | some p, some q => p == q
  | _, _ => false

/-- Controller `updateFolder`: optional re-parenting with
self/descendant checks, then field updates, then `save()`. -/
def updateFolder (db : DB) (uid fid : Nat) (req : UpdateFolderReq) : Outcome × DB :=
  match findFolder db fid uid with
  | none => (.notFound "Folder not found", db)
  | some folder =>
    let step : Except Outcome (Folder × Bool) :=
      match req.parentId with
      | none => .ok (folder, false)
      | some pv =>
        if parentParamMatchesCurrent pv folder.parentId then .ok (folder, false)
        else
          match pv with
          | some p =>
            if p == folder.id then
              .error (.invalidOperation "Cannot move folder into itself")
            else if (getDescendantIds db folder.id).any (fun d => d == p) then
              .error (.invalidOperation "Cannot move folder into one of its subfolders")
            else
              match findFolder db p uid with
              | none => .error (.notFound "Parent folder not found")
              | some _ => .ok ({ folder with parentId := some p }, true)
          | none => .ok ({ folder with parentId := none }, true)
    match step with
    | .error o => (o, db)
    | .ok (folder1, modifiedParent) =>
      let folder2 : Folder :=
        { folder1 with
          name := match req.name with | some n => jsTrim n | none => folder1.name
          color := match req.color with | some c => jsTrim c | none => folder1.color
          icon := match req.icon with | some i => jsTrim i | none => folder1.icon
          sortOrder := match req.sortOrder with | some s => s | none => folder1.sortOrder }
      match saveFolder db folder2 modifiedParent with
      | .error (.validation msgs) => (.validationFailed msgs, db)
      | .error .circular => (.serverError "Failed to update folder", db)
      | .error .duplicate =>
          (.conflict "A folder with this name already exists in the same location", db)
      | .ok db2 => (.okFolder folder2, db2)

/-- The two `updateMany` reparenting writes of the force-delete path:
resources with `folderId == fid`, then folders with `parentId == fid`, all
moved to `newParent`. -/
def reparentContents (db : DB) (fid : Nat) (newParent : Option Nat) : DB :=
  { db with
    resources := db.resources.map
      (fun r => if r.folderId == some fid then { r with folderId := newParent } else r)
    folders := db.folders.map
      (fun g => if g.parentId == some fid then { g with parentId := newParent } else g) }

/-- Model of `folder.deleteOne`: the folder's own removal. -/
def removeFolderDoc (db : DB) (fid : Nat) : DB :=
  { db with folders := db.folders.filter (fun g => g.id != fid) }

/-- Controller `deleteFolder`: emptiness check, optional
single-level reparenting (force), then removal — reparent before delete. -/
def deleteFolder (db : DB) (uid fid : Nat) (force : Bool) : Outcome × DB :=
  match findFolder db fid uid with
  | none => (.notFound "Folder not found", db)
  | some folder =>
    let isEmp := folderIsEmpty db folder.id
    if !isEmp && !force then
      (.notEmpty "Folder is not empty. Use force=true to move contents to parent folder and delete.", db)
    else
      let db1 := if !isEmp && force then reparentContents db folder.id folder.parentId else db
      (.okFolder folder, removeFolderDoc db1 folder.id)

/-! ### Resource model: validators and save pipeline

Mongoose runs custom validators and `maxlength` only on defined values;
`required` alone rejects `undefined` (and, for strings, the empty string).
-/

/-- Run a per-value check the way Mongoose does: skipped when undefined. -/
def checkDefined (v : Option String) (check : String → Bool) : Bool :=
  match v with
  | none => true
  | some s => check s

/-- The `url` conditional validator (`v && v.length > 0` when bookmark). -/
def urlValidator (r : Resource) (v : String) : Bool :=
  if r.type == "bookmark" then v.length > 0 else true

/-- The `content` conditional validator (required for prompt/snippet/note). -/
def contentValidator (r : Resource) (v : String) : Bool :=
  if ["prompt", "snippet", "note"].contains r.type then v.length > 0 else true

/-- Full document validation of a Resource, yielding the per-field messages
(the source's message strings) in schema order. -/
def validateResource (r : Resource) : List String :=
  (match r.title with
   | none => ["Title is required"]
   | some t =>
     (if t = "" then ["Title is required"] else []) ++
     (if t.length > 200 then ["Title cannot exceed 200 characters"] else [])) ++
  (if r.type = "" then ["Resource type is required"]
   else if RESOURCE_TYPES.contains r.type then []
   else ["Invalid resource type. Must be: bookmark, prompt, snippet, document, or note"]) ++
  (if checkDefined r.annotations (fun a => a.length ≤ 2000) then []
   else ["Annotations cannot exceed 2000 characters"]) ++
  (r.tags.filterMap
    (fun t => if t.length > 50 then some "Tag cannot exceed 50 characters" else none)) ++
  (if checkDefined r.url (urlValidator r) then [] else ["URL is required for bookmarks"]) ++
  (if checkDefined r.platform (fun p => p.length ≤ 50) then []
   else ["Platform name cannot exceed 50 characters"]) ++
  (if checkDefined r.category (fun c => c.length ≤ 50) then []
   else ["Category cannot exceed 50 characters"]) ++
  (if checkDefined r.codeLanguage (fun l => l.length ≤ 30) then []
   else ["Language name cannot exceed 30 characters"]) ++
  (if checkDefined r.fileName (fun n => n.length ≤ 255) then []
   else ["File name cannot exceed 255 characters"]) ++
  (if checkDefined r.content (fun c => c.length ≤ 100000) then []
   else ["Content cannot exceed 100,000 characters"]) ++
  (if checkDefined r.content (contentValidator r) then []
   else ["Content is required for prompts, snippets, and notes"]) ++
  (if checkDefined r.description (fun d => d.length ≤ 500) then []
   else ["Description cannot exceed 500 characters"])

/-- Model of `resource.save` on an existing document (no hooks, no unique index):
replaces the stored document with the same `_id`. -/
def saveResourceDoc (db : DB) (r : Resource) : DB :=
  { db with resources := db.resources.map (fun o => if o.id = r.id then r else o) }

/-! ### Resource controller -/

/-- Body of `POST /api/resources` after destructuring: `type`, `title`,
`folderId`, `annotations`, `tags`, and the rest-spread type fields. -/
structure CreateResourceReq where
  type : String
  title : Option String := none
  folderId : Option Nat := none
  annotations : Option String := none
  tags : Option (List String) := none
  url : Option String := none
  favicon : Option String := none
  platform : Option String := none
  category : Option String := none
  codeLanguage : Option String := none
  fileUrl : Option String := none
  fileName : Option String := none
  fileSize : Option Nat := none
  fileType : Option String := none
  cloudinaryPublicId : Option String := none
  content : Option String := none
  description : Option String := none
deriving Repr, DecidableEq

/-- The document a `new Resource` call builds from a create request, with
the schema setters (`trim`, `lowercase`) applied at assignment. -/
def buildResource (uid : Nat) (req : CreateResourceReq) (newId now : Nat) : Resource :=
  { id := newId
    userId := uid
    type := req.type
    folderId := req.folderId
    title := req.title.map jsTrim
    annotations := req.annotations.map jsTrim
    tags := (req.tags.getD []).map normalizeTag
    favorite := false
    url := req.url.map jsTrim
    favicon := req.favicon
    platform := req.platform.map jsTrim
    category := req.category.map jsTrim
    codeLanguage := req.codeLanguage.map (fun l => jsTrim (jsToLower l))
    fileUrl := req.fileUrl.map jsTrim
    fileName := req.fileName.map jsTrim
    fileSize := req.fileSize.getD 0
    fileType := req.fileType.map jsTrim
    cloudinaryPublicId := req.cloudinaryPublicId.map jsTrim
    content := req.content.map jsTrim
    description := req.description.map jsTrim
    createdAt := now }

/-- Controller `createResource`: explicit type check, folder
ownership check, then `save()` with document validation. -/
def createResource (db : DB) (uid : Nat) (req : CreateResourceReq) (newId now : Nat) :
    Outcome × DB :=
  if !RESOURCE_TYPES.contains req.type then
    (.invalidType "Invalid resource type. Must be one of: bookmark, prompt, snippet, document, note", db)
  else
    let folderCheck : Except Outcome Unit :=
      match req.folderId with
      | none => .ok ()
      | some f =>
        match findFolder db f uid with
        | none => .error (.notFound "Folder not found")
        | some _ => .ok ()
    match folderCheck with
    | .error o => (o, db)
    | .ok _ =>
      let r := buildResource uid req newId now
      match validateResource r with
      | [] => (.okResource r, { db with resources := db.resources ++ [r] })
      | errs => (.validationFailed errs, db)

/-- Body of `PUT /api/resources/:id` after destructuring.  The rest-spread
`typeFields` keeps every other schema path — including `type`, which the
destructuring does not remove. -/
structure UpdateResourcePatch where
  title : Option String := none
  folderId : Option (Option Nat) := none
  annotations : Option String := none
  tags : Option (List String) := none
  favorite : Option Bool := none
  type : Option String := none
  url : Option String := none
  favicon : Option String := none
  platform : Option String := none
  category : Option String := none
  codeLanguage : Option String := none
  fileUrl : Option String := none
  fileName : Option String := none
  fileSize : Option Nat := none
  fileType : Option String := none
  cloudinaryPublicId : Option String := none
  content : Option String := none
  description : Option String := none
deriving Repr, DecidableEq

/-- The field assignments of `updateResource` on a found document: the five
destructured fields, then the `typeFields` loop (which includes `type`),
with schema setters applied at assignment. -/
def applyResourcePatch (r : Resource) (patch : UpdateResourcePatch) : Resource :=
  { r with
    title := match patch.title with | some t => some (jsTrim t) | none => r.title
    annotations := match patch.annotations with | some a => some (jsTrim a) | none => r.annotations
    tags := match patch.tags with | some ts => ts.map normalizeTag | none => r.tags
    favorite := match patch.favorite with | some b => b | none => r.favorite
    type := match patch.type with | some t => t | none => r.type
    url := match patch.url with | some u => some (jsTrim u) | none => r.url
    favicon := match patch.favicon with | some v => some v | none => r.favicon
    platform := match patch.platform with | some p => some (jsTrim p) | none => r.platform
    category := match patch.category with | some c => some (jsTrim c) | none => r.category
    codeLanguage := match patch.codeLanguage with
      | some l => some (jsTrim (jsToLower l)) | none => r.codeLanguage
    fileUrl := match patch.fileUrl with | some u => some (jsTrim u) | none => r.fileUrl
    fileName := match patch.fileName with | some n => some (jsTrim n) | none => r.fileName
    fileSize := match patch.fileSize with | some s => s | none => r.fileSize
    fileType := match patch.fileType with | some t => some (jsTrim t) | none => r.fileType
    cloudinaryPublicId := match patch.cloudinaryPublicId with
      | some c => some (jsTrim c) | none => r.cloudinaryPublicId
    content := match patch.content with | some c => some (jsTrim c) | none => r.content
    description := match patch.description with
      | some d => some (jsTrim d) | none => r.description }

/-- Controller `updateResource`: folder re-check, field
assignments, then `save()` with validation. -/
def updateResource (db : DB) (uid rid : Nat) (patch : UpdateResourcePatch) : Outcome × DB :=
  match findResource db rid uid with
  | none => (.notFound "Resource not found", db)
  | some r0 =>
    let folderStep : Except Outcome Resource :=
      match patch.folderId with
      | none => .ok r0
      | some fv =>
        if parentParamMatchesCurrent fv r0.folderId then .ok r0
        else
          match fv with
          | some f =>
            match findFolder db f uid with
            | none => .error (.notFound "Folder not found")
            | some _ => .ok { r0 with folderId := some f }
          | none => .ok { r0 with folderId := none }
    match folderStep with
    | .error o => (o, db)
    | .ok r1 =>
      let r2 := applyResourcePatch r1 patch
      match validateResource r2 with
      | [] => (.okResource r2, saveResourceDoc db r2)
      | errs => (.validationFailed errs, db)

/-- Controller `deleteResource`: a scoped find-and-delete. -/
def deleteResource (db : DB) (uid rid : Nat) : Outcome × DB :=
  match findResource db rid uid with
  | none => (.notFound "Resource not found", db)
  | some r =>
    (.okResource r, { db with resources := db.resources.filter (fun o => o.id != r.id) })

/-- Controller `getResourceById`: read-only lookup. -/
def getResourceById (db : DB) (uid rid : Nat) : Outcome :=
  match findResource db rid uid with
  | none => .notFound "Resource not found"
  | some r => .okResource r

/-- Controller `toggleFavorite`: flip the flag and
`save()`; any save failure falls into the controller's generic 500 catch. -/
def toggleFavorite (db : DB) (uid rid : Nat) : Outcome × DB :=
  match findResource db rid uid with
  | none => (.notFound "Resource not found", db)
  | some r =>
    let r1 := { r with favorite := !r.favorite }
    match validateResource r1 with
    | [] => (.okResource r1, saveResourceDoc db r1)
    | _ => (.serverError "Failed to toggle favorite", db)

/-! ### Query engine (`GET /api/resources`, `getResources`)

The storage engine's text matcher and relevance score are external
collaborators, passed in as parameters `tm` and `score`.
-/

/-- The raw `folderId` query parameter: the literal strings `'null'` and
`'root'` are sentinels for the unfiled set. -/
inductive FolderIdParam where
  | nullLit
  | rootLit
  | idLit (fid : Nat)
deriving Repr, DecidableEq

/-- The query string of `GET /api/resources` (defaults applied upstream:
`page = 1`, `limit = 50`).  `favorite` stays a raw string, as in the source. -/
structure ResourceQuery where
  type : Option String := none
  folderId : Option FolderIdParam := none
  favorite : Option String := none
  tags : Option (List String) := none
  search : Option String := none
  page : Nat := 1
  limit : Nat := 50
deriving Repr, DecidableEq

/-- The Mongo filter document `getResources` builds. -/
structure MongoFilter where
  userId : Nat
  type : Option String := none
  folderId : Option (Option Nat) := none
  favorite : Option Bool := none
  tags : Option (List String) := none
  search : Option String := none
deriving Repr, DecidableEq

/-- The filter-building block of `getResources`: `type` only when in the
closed set, the `'null'`/`'root'` sentinels, `favorite` only on the literal
string `'true'`, tags normalized, `$text` from `search`. -/
def buildFilter (uid : Nat) (q : ResourceQuery) : MongoFilter :=
  { userId := uid
    type := match q.type with
      | some t => if RESOURCE_TYPES.contains t then some t else none
      | none => none
    folderId := match q.folderId with
      | some .nullLit => some none
      | some .rootLit => some none
      | some (.idLit f) => some (some f)
      | none => none
    favorite := if q.favorite == some "true" then some true else none
    tags := match q.tags with
      | some ts => some (ts.map normalizeTag)
      | none => none
    search := q.search }

/-- One document against the filter: conjunctive across fields, `$in`
(at-least-one-common-tag) within `tags`, `tm` deciding `$text`. -/
def matchesFilter (tm : Resource → String → Bool) (f : MongoFilter) (r : Resource) : Bool :=
  r.userId == f.userId &&
  (match f.type with | some t => r.type == t | none => true) &&
  (match f.folderId with | some fv => r.folderId == fv | none => true) &&
  (match f.favorite with | some b => r.favorite == b | none => true) &&
  (match f.tags with | some ts => ts.any (fun t => r.tags.contains t) | none => true) &&
  (match f.search with | some s => tm r s | none => true)

/-- The filtered set in query order: text-score descending when a search
term is present, otherwise `createdAt` descending. -/
def filteredSorted (db : DB) (uid : Nat) (q : ResourceQuery)
    (tm : Resource → String → Bool) (score : Resource → Nat) : List Resource :=
  let matched := db.resources.filter (matchesFilter tm (buildFilter uid q))
  match q.search with
  | some _ => sortBy (fun a b => score b ≤ score a) matched
  | none => sortBy (fun a b => b.createdAt ≤ a.createdAt) matched

/-- The envelope of `getResources`. -/
structure QueryResult where
  resources : List Resource
  page : Nat
  limit : Nat
  total : Nat
  pages : Nat
deriving Repr, DecidableEq

/-- Controller `getResources`: one filter drives both the page
slice (`skip = (page-1)*limit`) and the `countDocuments` total;
`pages = Math.ceil(total/limit)`. -/
def getResources (db : DB) (uid : Nat) (q : ResourceQuery)
    (tm : Resource → String → Bool) (score : Resource → Nat) : QueryResult :=
  let f := buildFilter uid q
  let skip := (q.page - 1) * q.limit
  let total := db.resources.countP (matchesFilter tm f)
  { resources := ((filteredSorted db uid q tm score).drop skip).take q.limit
    page := q.page
    limit := q.limit
    total := total
    pages := (total + q.limit - 1) / q.limit }

/-! ### Concrete stores used as witnesses -/

/-- Root folder `A` of the witness store. -/
def folderA : Folder := { id := 1, userId := 1, name := "A" }

/-- Child folder `B` of `A`. -/
def folderB : Folder := { id := 2, userId := 1, parentId := some 1, name := "B" }

/-- A note filed under folder `A`. -/
def noteInA : Resource :=
  { id := 7, userId := 1, type := "note", title := some "n", folderId := some 1,
    content := some "c" }

/-- Witness store: folder `A` with child `B` and one resource inside `A`. -/
def dbTree : DB := { folders := [folderA, folderB], resources := [noteInA] }

/-- Witness store owned by user 2, probed by user 1 in ownership claims. -/
def dbOther : DB :=
  { folders := [{ id := 5, userId := 2, name := "other" }],
    resources := [{ id := 6, userId := 2, type := "note", title := some "x",
                    content := some "y" }] }

/-- Witness store with no documents at all. -/
def dbEmpty : DB := { folders := [], resources := [] }

/-- A stored bookmark, created with type `bookmark` and a URL. -/
def bookmarkRes : Resource :=
  { id := 1, userId := 1, type := "bookmark", title := some "t", url := some "http://x" }

/-- Witness store holding just `bookmarkRes`. -/
def dbBookmark : DB := { folders := [], resources := [bookmarkRes] }

/-- An update body carrying a `type` change (with the new type's payload). -/
def typePatch : UpdateResourcePatch := { type := some "note", content := some "hello" }

/-- An update body carrying a `type` outside the closed set. -/
def badTypePatch : UpdateResourcePatch := { type := some "zzz" }

/-- A create body whose two tags normalize to the same string. -/
def reqTagged : CreateResourceReq :=
  { type := "note", title := some "t", content := some "c",
    tags := some ["React", "react "] }

/-- A create body for a bookmark with no `url` key at all. -/
def reqBookmarkNoUrl : CreateResourceReq := { type := "bookmark", title := some "My link" }

/-- A text matcher accepting everything (stands for the `$text` engine). -/
def tmAll : Resource → String → Bool := fun _ _ => true

/-- A constant relevance score. -/
def scoreZero : Resource → Nat := fun _ => 0

/-- A favorited note. -/
def favRes : Resource :=
  { id := 3, userId := 1, type := "note", title := some "n", content := some "c",
    favorite := true }

/-- Witness store holding one favorited resource. -/
def dbFav : DB := { folders := [], resources := [favRes] }

/-- Query with the favorite filter set to the string `false`. -/
def qFavFalse : ResourceQuery := { favorite := some "false" }

/-- Query with the favorite filter set to the string `true`. -/
def qFavTrue : ResourceQuery := { favorite := some "true" }

/-! ### Shared helper lemmas -/

theorem length_insertBy (le : α → α → Bool) (x : α) (l : List α) :
    (insertBy le x l).length = l.length + 1 := by
  induction l with
  | nil => rfl
  | cons y ys ih => simp only [insertBy]; split <;> simp [ih]

theorem mem_insertBy (le : α → α → Bool) (x a : α) (l : List α) :
    a ∈ insertBy le x l ↔ a = x ∨ a ∈ l := by
  induction l with
  | nil => simp [insertBy]
  | cons y ys ih =>
    simp only [insertBy]; split
    · rw [List.mem_cons, List.mem_cons]
    · rw [List.mem_cons, ih, List.mem_cons]; tauto

theorem length_sortBy (le : α → α → Bool) (l : List α) :
    (sortBy le l).length = l.length := by
  induction l with
  | nil => rfl
  | cons x xs ih => simp only [sortBy]; rw [length_insertBy, ih, List.length_cons]

theorem mem_sortBy (le : α → α → Bool) (a : α) (l : List α) :
    a ∈ sortBy le l ↔ a ∈ l := by
  induction l with
  | nil => exact Iff.rfl
  | cons x xs ih => simp only [sortBy]; rw [mem_insertBy, List.mem_cons, ih]

theorem findFolder_spec {db : DB} {fid uid : Nat} {f : Folder}
    (h : findFolder db fid uid = some f) :
    f ∈ db.folders ∧ f.id = fid ∧ f.userId = uid := by
  refine ⟨List.mem_of_find?_eq_some h, ?_⟩
  have hp := List.find?_some h
  simp only [Bool.and_eq_true, beq_iff_eq] at hp
  exact hp

theorem findResource_spec {db : DB} {rid uid : Nat} {r : Resource}
    (h : findResource db rid uid = some r) :
    r ∈ db.resources ∧ r.id = rid ∧ r.userId = uid := by
  refine ⟨List.mem_of_find?_eq_some h, ?_⟩
  have hp := List.find?_some h
  simp only [Bool.and_eq_true, beq_iff_eq] at hp
  exact hp

theorem map_id_of_fix {α : Type} (l : List α) (f : α → α) (h : ∀ a ∈ l, f a = a) :
    l.map f = l := by
  induction l with
  | nil => rfl
  | cons x xs ih =>
    simp only [List.map_cons]
    rw [h x (List.mem_cons_self x xs), ih (fun a ha => h a (List.mem_cons_of_mem _ ha))]

theorem reparentContents_of_empty (db : DB) (fid : Nat) (np : Option Nat)
    (h : folderIsEmpty db fid = true) : reparentContents db fid np = db := by
  unfold folderIsEmpty at h
  rw [Bool.and_eq_true, beq_iff_eq, beq_iff_eq] at h
  obtain ⟨h1, h2⟩ := h
  rw [List.countP_eq_zero] at h1 h2
  unfold reparentContents
  have hres := map_id_of_fix db.resources
    (fun r => if r.folderId == some fid then { r with folderId := np } else r)
    (fun r hr => by simp [h1 r hr])
  have hfol := map_id_of_fix db.folders
    (fun g => if g.parentId == some fid then { g with parentId := np } else g)
    (fun g hg => by simp [h2 g hg])
  rw [hres, hfol]

/-! ### C1 — moving a folder into itself or a descendant always fails -/

/-- C1: for a folder `F` owned by `uid` in a well-formed store (the stored
parent of `F` is neither `F` itself nor among `F`'s computed descendants),
any `updateFolder` request whose target parent `P` is `F` itself or lies in
`getDescendantIds(F)` fails with an `InvalidOperation` (400) response and
leaves the store — in particular `F.parentId` — completely unchanged. -/
theorem c1_move_into_self_or_descendant_fails (db : DB) (uid fid P : Nat) (F : Folder)
    (req : UpdateFolderReq)
    (hF : findFolder db fid uid = some F)
    (hwf : ∀ q, F.parentId = some q → q ≠ F.id ∧ q ∉ getDescendantIds db F.id)
    (hP : P = F.id ∨ P ∈ getDescendantIds db F.id)
    (hreq : req.parentId = some (some P)) :
    (∃ msg, (updateFolder db uid fid req).1 = Outcome.invalidOperation msg) ∧
    (updateFolder db uid fid req).2 = db := by
  have hmatch : parentParamMatchesCurrent (some P) F.parentId = false := by
    cases hc : F.parentId with
    | none => rfl
    | some q =>
      obtain ⟨hq1, hq2⟩ := hwf q hc
      simp only [parentParamMatchesCurrent, beq_eq_false_iff_ne, Ne]
      intro he
      rcases hP with h | h
      · exact hq1 (he ▸ h)
      · exact hq2 (he ▸ h)
  by_cases hPF : P = F.id
  · have hbeq : (P == F.id) = true := by simp [hPF]
    have key : updateFolder db uid fid req =
        (.invalidOperation "Cannot move folder into itself", db) := by
      simp only [updateFolder, hF, hreq, hmatch, Bool.false_eq_true, if_false, hbeq, if_true]
    rw [key]
    exact ⟨⟨_, rfl⟩, rfl⟩
  · have hPd : P ∈ getDescendantIds db F.id := by
      rcases hP with h | h
      · exact absurd h hPF
      · exact h
    have hbeq : (P == F.id) = false := by simp [hPF]
    have hany : ((getDescendantIds db F.id).any (fun d => d == P)) = true :=
      List.any_eq_true.mpr ⟨P, hPd, by simp⟩
    have key : updateFolder db uid fid req =
        (.invalidOperation "Cannot move folder into one of its subfolders", db) := by
      simp only [updateFolder, hF, hreq, hmatch, Bool.false_eq_true, if_false, hbeq, hany,
        if_true]
    rw [key]
    exact ⟨⟨_, rfl⟩, rfl⟩

/-- C1 witness: the spec's own scenario shape — root folder `A` with child
`B`; moving `A` under its descendant `B` is refused and the store is
untouched. -/
theorem c1_witness :
    (∃ msg, (updateFolder dbTree 1 1 { parentId := some (some 2) }).1 =
      Outcome.invalidOperation msg) ∧
    (updateFolder dbTree 1 1 { parentId := some (some 2) }).2 = dbTree :=
  c1_move_into_self_or_descendant_fails dbTree 1 1 2 folderA
    { parentId := some (some 2) } (by decide)
    (fun q h => Option.noConfusion h) (by decide) rfl

/-! ### C2 — force delete reparents one level up, then removes the folder -/

/-- C2: a successful `deleteFolder(force = true)` on a folder `F` owned by
`uid` (in a store where `F` is not its own parent and folder ids are unique)
removes `F`, leaves no folder pointing at `F` as parent and no resource filed
under `F`, moves every former child folder and resource to `F.parentId`
(single-level reparenting, no descendant is deleted), and equals the
reparenting writes followed by — not preceded by — the folder's removal. -/
theorem c2_force_delete_reparents_then_removes (db : DB) (uid fid : Nat) (F : Folder)
    (hF : findFolder db fid uid = some F)
    (hself : F.parentId ≠ some F.id)
    (hids : (db.folders.map (fun f => f.id)).Nodup) :
    (deleteFolder db uid fid true).1 = Outcome.okFolder F ∧
    (deleteFolder db uid fid true).2 =
      removeFolderDoc (reparentContents db F.id F.parentId) F.id ∧
    (∀ g ∈ (deleteFolder db uid fid true).2.folders, g.id ≠ F.id) ∧
    (∀ g ∈ (deleteFolder db uid fid true).2.folders, g.parentId ≠ some F.id) ∧
    (∀ r ∈ (deleteFolder db uid fid true).2.resources, r.folderId ≠ some F.id) ∧
    (∀ g ∈ db.folders, g.parentId = some F.id →
      { g with parentId := F.parentId } ∈ (deleteFolder db uid fid true).2.folders) ∧
    (∀ r ∈ db.resources, r.folderId = some F.id →
      { r with folderId := F.parentId } ∈ (deleteFolder db uid fid true).2.resources) ∧
    (∀ g ∈ db.folders, g.id ≠ F.id →
      ∃ g' ∈ (deleteFolder db uid fid true).2.folders, g'.id = g.id ∧ g'.name = g.name) := by
  have hFmem := (findFolder_spec hF).1
  have key : deleteFolder db uid fid true =
      (Outcome.okFolder F, removeFolderDoc (reparentContents db F.id F.parentId) F.id) := by
    by_cases hemp : folderIsEmpty db F.id = true
    · rw [reparentContents_of_empty db F.id F.parentId hemp]
      simp [deleteFolder, hF, hemp]
    · have hemp' : folderIsEmpty db F.id = false := by
        cases h : folderIsEmpty db F.id
        · rfl
        · exact absurd h hemp
      simp [deleteFolder, hF, hemp']
  have hinj : ∀ g ∈ db.folders, g.id = F.id → g = F := by
    intro g hg hgid
    by_contra hne
    have := List.inj_on_of_nodup_map hids hg hFmem hgid
    exact hne this
  rw [key]
  refine ⟨rfl, rfl, ?_, ?_, ?_, ?_, ?_, ?_⟩ <;>
    simp only [removeFolderDoc, reparentContents]
  · intro g hg
    have := (List.mem_filter.mp hg).2
    simpa using this
  · intro g hg
    obtain ⟨hgm, _⟩ := List.mem_filter.mp hg
    obtain ⟨g0, hg0, hmap⟩ := List.mem_map.mp hgm
    by_cases hc : (g0.parentId == some F.id) = true
    · rw [if_pos hc] at hmap
      rw [← hmap]
      exact hself
    · rw [if_neg (by simp [hc])] at hmap
      rw [← hmap]
      simpa using hc
  · intro r hr
    obtain ⟨r0, hr0, hmap⟩ := List.mem_map.mp hr
    by_cases hc : (r0.folderId == some F.id) = true
    · rw [if_pos hc] at hmap
      rw [← hmap]
      exact hself
    · rw [if_neg (by simp [hc])] at hmap
      rw [← hmap]
      simpa using hc
  · intro g hg hgp
    have hgid : g.id ≠ F.id := by
      intro hgid
      have hgF := hinj g hg hgid
      rw [hgF] at hgp
      exact hself hgp
    refine List.mem_filter.mpr ⟨?_, by simpa using hgid⟩
    refine List.mem_map.mpr ⟨g, hg, ?_⟩
    rw [if_pos (by simp [hgp])]
  · intro r hr hrp
    refine List.mem_map.mpr ⟨r, hr, ?_⟩
    rw [if_pos (by simp [hrp])]
  · intro g hg hgid
    refine ⟨if g.parentId == some F.id then { g with parentId := F.parentId } else g, ?_, ?_, ?_⟩
    · refine List.mem_filter.mpr ⟨List.mem_map.mpr ⟨g, hg, rfl⟩, ?_⟩
      by_cases hc : (g.parentId == some F.id) = true
      · rw [if_pos hc]
        simpa using hgid
      · rw [if_neg (by simp [hc])]
        simpa using hgid
    · by_cases hc : (g.parentId == some F.id) = true
      · rw [if_pos hc]
      · rw [if_neg (by simp [hc])]
    · by_cases hc : (g.parentId == some F.id) = true
      · rw [if_pos hc]
      · rw [if_neg (by simp [hc])]

/-- C2 witness: in `dbTree` (folder `A` with child `B` and one resource
inside `A`) the forced delete of `A` succeeds and its result is the
reparenting writes followed by the removal of `A`. -/
theorem c2_witness :
    (deleteFolder dbTree 1 1 true).1 = Outcome.okFolder folderA ∧
    (deleteFolder dbTree 1 1 true).2 =
      removeFolderDoc (reparentContents dbTree folderA.id folderA.parentId) folderA.id :=
  ⟨(c2_force_delete_reparents_then_removes dbTree 1 1 folderA (by decide) (by decide)
      (by decide)).1,
   (c2_force_delete_reparents_then_removes dbTree 1 1 folderA (by decide) (by decide)
      (by decide)).2.1⟩

/-! ### C3 — non-forced delete of a non-empty folder fails and changes nothing -/

/-- C3: when a folder owned by `uid` has at least one child folder or at
least one resource filed under it, `deleteFolder` without `force` returns the
`NotEmpty` (400) response and the store is returned exactly as it was. -/
theorem c3_delete_nonempty_not_forced_fails (db : DB) (uid fid : Nat) (F : Folder)
    (hF : findFolder db fid uid = some F)
    (hne : (∃ g ∈ db.folders, g.parentId = some F.id) ∨
           (∃ r ∈ db.resources, r.folderId = some F.id)) :
    deleteFolder db uid fid false =
      (Outcome.notEmpty
        "Folder is not empty. Use force=true to move contents to parent folder and delete.",
       db) := by
  have hemp : folderIsEmpty db F.id = false := by
    unfold folderIsEmpty
    rcases hne with ⟨g, hg, hgp⟩ | ⟨r, hr, hrp⟩
    · have hpos : db.folders.countP (fun f => f.parentId == some F.id) ≠ 0 := by
        intro h0
        rw [List.countP_eq_zero] at h0
        exact h0 g hg (by simp [hgp])
      simp [beq_iff_eq, hpos]
    · have hpos : db.resources.countP (fun r => r.folderId == some F.id) ≠ 0 := by
        intro h0
        rw [List.countP_eq_zero] at h0
        exact h0 r hr (by simp [hrp])
      simp [beq_iff_eq, hpos]
  simp [deleteFolder, hF, hemp]

/-- C3 witness: the non-forced delete of folder `A` in `dbTree` reports
`NotEmpty` and hands back the untouched store. -/
theorem c3_witness :
    deleteFolder dbTree 1 1 false =
    (Outcome.notEmpty
      "Folder is not empty. Use force=true to move contents to parent folder and delete.",
     dbTree) :=
  c3_delete_nonempty_not_forced_fails dbTree 1 1 folderA (by decide)
    (Or.inl ⟨folderB, by decide, by decide⟩)

/-! ### C7 — wrong owner behaves exactly like absent -/

/-- C7: when no resource with id `rid` (and no folder with id `fid`) is owned
by `uid` — covering both "the entity does not exist" and "it exists but
belongs to another user" — every `(id, userId)`-scoped operation returns the
same `NotFound` response and leaves the store unchanged; in particular the
response on the store equals the response on the store with that id removed
altogether, so the two cases are indistinguishable to the caller. -/
theorem c7_wrong_owner_like_absent (db : DB) (uid rid fid : Nat)
    (hr : ∀ r ∈ db.resources, r.id = rid → r.userId ≠ uid)
    (hf : ∀ g ∈ db.folders, g.id = fid → g.userId ≠ uid) :
    getResourceById db uid rid = Outcome.notFound "Resource not found" ∧
    getFolderById db uid fid = Outcome.notFound "Folder not found" ∧
    getResourceById { db with resources := db.resources.filter (fun r => r.id != rid) } uid rid
      = getResourceById db uid rid ∧
    getFolderById { db with folders := db.folders.filter (fun g => g.id != fid) } uid fid
      = getFolderById db uid fid ∧
    (∀ patch, updateResource db uid rid patch = (Outcome.notFound "Resource not found", db)) ∧
    deleteResource db uid rid = (Outcome.notFound "Resource not found", db) ∧
    toggleFavorite db uid rid = (Outcome.notFound "Resource not found", db) ∧
    (∀ req, updateFolder db uid fid req = (Outcome.notFound "Folder not found", db)) ∧
    (∀ force, deleteFolder db uid fid force = (Outcome.notFound "Folder not found", db)) := by
  have hrn : findResource db rid uid = none := by
    rw [findResource, List.find?_eq_none]
    intro r hrm
    simp only [Bool.and_eq_true, beq_iff_eq, not_and]
    exact fun h1 h2 => hr r hrm h1 h2
  have hfn : findFolder db fid uid = none := by
    rw [findFolder, List.find?_eq_none]
    intro g hgm
    simp only [Bool.and_eq_true, beq_iff_eq, not_and]
    exact fun h1 h2 => hf g hgm h1 h2
  have hrn2 : findResource { db with resources := db.resources.filter (fun r => r.id != rid) }
      rid uid = none := by
    rw [findResource, List.find?_eq_none]
    intro r hrm
    have h2 := (List.mem_filter.mp hrm).2
    simp only [bne_iff_ne, Ne] at h2
    simp only [Bool.and_eq_true, beq_iff_eq, not_and]
    exact fun h1 _ => h2 h1
  have hfn2 : findFolder { db with folders := db.folders.filter (fun g => g.id != fid) }
      fid uid = none := by
    rw [findFolder, List.find?_eq_none]
    intro g hgm
    have h2 := (List.mem_filter.mp hgm).2
    simp only [bne_iff_ne, Ne] at h2
    simp only [Bool.and_eq_true, beq_iff_eq, not_and]
    exact fun h1 _ => h2 h1
  refine ⟨?_, ?_, ?_, ?_, ?_, ?_, ?_, ?_, ?_⟩
  · simp [getResourceById, hrn]
  · simp [getFolderById, hfn]
  · simp [getResourceById, hrn, hrn2]
  · simp [getFolderById, hfn, hfn2]
  · intro patch
    simp [updateResource, hrn]
  · simp [deleteResource, hrn]
  · simp [toggleFavorite, hrn]
  · intro req
    simp [updateFolder, hfn]
  · intro force
    simp [deleteFolder, hfn]

/-- C7 witness: user 1 probing user 2's folder (id 5) and resource (id 6)
gets the very responses an absent id would give. -/
theorem c7_witness :
    getResourceById dbOther 1 6 = Outcome.notFound "Resource not found" ∧
    getFolderById dbOther 1 5 = Outcome.notFound "Folder not found" ∧
    deleteResource dbOther 1 6 = (Outcome.notFound "Resource not found", dbOther) :=
  ⟨(c7_wrong_owner_like_absent dbOther 1 6 5 (by decide) (by decide)).1,
   (c7_wrong_owner_like_absent dbOther 1 6 5 (by decide) (by decide)).2.1,
   (c7_wrong_owner_like_absent dbOther 1 6 5 (by decide) (by decide)).2.2.2.2.2.1⟩

/-! ### C10 — toggleFavorite flips only the flag and is an involution -/

theorem validateResource_favorite (r : Resource) (b : Bool) :
    validateResource { r with favorite := b } = validateResource r := rfl

theorem find?_map_replace (l : List Resource) (rid uid : Nat) (r r1 : Resource)
    (hfind : l.find? (fun x => x.id == rid && x.userId == uid) = some r)
    (hid : r.id = rid) (hr1 : r1.id = rid) (hr1u : r1.userId = uid) :
    (l.map (fun x => if x.id = r.id then r1 else x)).find?
      (fun x => x.id == rid && x.userId == uid) = some r1 := by
  induction l with
  | nil => simp [List.find?] at hfind
  | cons x xs ih =>
    rw [List.map_cons]
    by_cases hx : x.id = r.id
    · rw [if_pos hx]
      rw [List.find?_cons_of_pos _ (by simp [hr1, hr1u])]
    · rw [if_neg hx]
      have hxid : x.id ≠ rid := fun h => hx (h.trans hid.symm)
      have hpx : (x.id == rid && x.userId == uid) = false := by simp [hxid]
      rw [List.find?_cons_of_neg _ (by simp [hxid])]
      rw [List.find?_cons_of_neg _ (by simp [hxid])] at hfind
      exact ih hfind

/-- C10: toggling the favorite of resource `rid` owned by `uid` (valid
document, unique ids) negates exactly the `favorite` flag — the returned
resource is `r` with `favorite` flipped and every other document and field
is untouched — and toggling again returns the original resource and restores
the store exactly. -/
theorem c10_toggle_flips_only_favorite (db : DB) (uid rid : Nat) (r : Resource)
    (hr : findResource db rid uid = some r)
    (hvalid : validateResource r = [])
    (hids : (db.resources.map (fun x => x.id)).Nodup) :
    (toggleFavorite db uid rid).1 = Outcome.okResource { r with favorite := !r.favorite } ∧
    (toggleFavorite db uid rid).2.folders = db.folders ∧
    (toggleFavorite db uid rid).2.resources =
      db.resources.map
        (fun x => if x.id = r.id then { r with favorite := !r.favorite } else x) ∧
    toggleFavorite (toggleFavorite db uid rid).2 uid rid = (Outcome.okResource r, db) := by
  obtain ⟨hmem, hid, huid⟩ := findResource_spec hr
  have hvalid1 : validateResource { r with favorite := !r.favorite } = [] := by
    rw [validateResource_favorite]; exact hvalid
  have key1 : toggleFavorite db uid rid =
      (Outcome.okResource { r with favorite := !r.favorite },
       saveResourceDoc db { r with favorite := !r.favorite }) := by
    simp only [toggleFavorite, hr, hvalid1]
  refine ⟨by rw [key1], by rw [key1]; rfl, by rw [key1]; rfl, ?_⟩
  have hfind2 : findResource (saveResourceDoc db { r with favorite := !r.favorite }) rid uid =
      some { r with favorite := !r.favorite } :=
    find?_map_replace db.resources rid uid r _ hr hid hid huid
  have hdone : saveResourceDoc (saveResourceDoc db { r with favorite := !r.favorite }) r
      = db := by
    unfold saveResourceDoc
    rw [List.map_map]
    have hfix : ∀ x ∈ db.resources,
        ((fun o => if o.id = r.id then r else o) ∘
         (fun o => if o.id = ({ r with favorite := !r.favorite } : Resource).id then
            { r with favorite := !r.favorite } else o)) x = x := by
      intro x hx
      by_cases hxe : x.id = r.id
      · have hxr : x = r := List.inj_on_of_nodup_map hids hx hmem hxe
        simp only [Function.comp]
        rw [if_pos hxe, if_pos rfl]
        exact hxr.symm
      · simp only [Function.comp]
        rw [if_neg hxe, if_neg hxe]
    rw [map_id_of_fix _ _ hfix]
  rw [key1]
  show toggleFavorite (saveResourceDoc db { r with favorite := !r.favorite }) uid rid
      = (Outcome.okResource r, db)
  simp only [toggleFavorite, hfind2, Bool.not_not]
  rw [show ({ r with favorite := r.favorite } : Resource) = r from rfl]
  simp only [hvalid, hdone]

/-- C10 witness: toggling the note (id 7) in `dbTree` marks it favorite and
nothing else; toggling again hands back the original note and store. -/
theorem c10_witness :
    (toggleFavorite dbTree 1 7).1 =
      Outcome.okResource { noteInA with favorite := !noteInA.favorite } ∧
    toggleFavorite (toggleFavorite dbTree 1 7).2 1 7 = (Outcome.okResource noteInA, dbTree) :=
  ⟨(c10_toggle_flips_only_favorite dbTree 1 7 noteInA (by decide) (by decide) (by decide)).1,
   (c10_toggle_flips_only_favorite dbTree 1 7 noteInA (by decide) (by decide)
      (by decide)).2.2.2⟩

/-! ### Success shapes of the resource write paths -/

theorem parentParamMatchesCurrent_none (x : Option Nat) :
    parentParamMatchesCurrent none x = false := by
  cases x <;> rfl

theorem updateResource_ok_applies (db : DB) (uid rid : Nat) (patch : UpdateResourcePatch)
    (r0 r' : Resource) (hr : findResource db rid uid = some r0)
    (hok : (updateResource db uid rid patch).1 = Outcome.okResource r') :
    ∃ r1 : Resource, r1.type = r0.type ∧ r1.tags = r0.tags ∧
      r' = applyResourcePatch r1 patch := by
  rcases hfv : patch.folderId with _ | ⟨_ | f⟩
  · rcases hval : validateResource (applyResourcePatch r0 patch) with _ | ⟨e, es⟩ <;>
      simp [updateResource, hr, hfv, hval] at hok
    exact ⟨r0, rfl, rfl, hok.symm⟩
  · rcases hval : validateResource (applyResourcePatch { r0 with folderId := none } patch)
      with _ | ⟨e, es⟩ <;>
      simp [updateResource, hr, hfv, parentParamMatchesCurrent_none, hval] at hok
    exact ⟨{ r0 with folderId := none }, rfl, rfl, hok.symm⟩
  · cases hm : parentParamMatchesCurrent (some f) r0.folderId with
    | true =>
      rcases hval : validateResource (applyResourcePatch r0 patch) with _ | ⟨e, es⟩ <;>
        simp [updateResource, hr, hfv, hm, hval] at hok
      exact ⟨r0, rfl, rfl, hok.symm⟩
    | false =>
      rcases hff : findFolder db f uid with _ | F
      · simp [updateResource, hr, hfv, hm, hff] at hok
      · rcases hval : validateResource (applyResourcePatch { r0 with folderId := some f } patch)
          with _ | ⟨e, es⟩ <;>
          simp [updateResource, hr, hfv, hm, hff, hval] at hok
        exact ⟨{ r0 with folderId := some f }, rfl, rfl, hok.symm⟩

theorem createResource_ok_builds (db : DB) (uid : Nat) (req : CreateResourceReq)
    (newId now : Nat) (r' : Resource)
    (hok : (createResource db uid req newId now).1 = Outcome.okResource r') :
    r' = buildResource uid req newId now := by
  by_cases hty : req.type ∈ RESOURCE_TYPES
  · rcases hfo : req.folderId with _ | f
    · rcases hval : validateResource (buildResource uid req newId now) with _ | ⟨e, es⟩ <;>
        simp [createResource, hty, hfo, hval] at hok
      exact hok.symm
    · rcases hff : findFolder db f uid with _ | F
      · simp [createResource, hty, hfo, hff] at hok
      · rcases hval : validateResource (buildResource uid req newId now) with _ | ⟨e, es⟩ <;>
          simp [createResource, hty, hfo, hff, hval] at hok
        exact hok.symm
  · simp [createResource, hty] at hok

/-! ### C4 — resource type is not immutable on the update path -/

/-- C4 counterexample: a stored bookmark updated with a patch carrying
`type: note` (plus `content`) is saved with type `note` — the update path
neither rejects nor ignores the `type` field, so the stored type after
update differs from the type at creation. -/
theorem c4_counterexample :
    (dbBookmark.resources.map (fun r => r.type)) = ["bookmark"] ∧
    ((updateResource dbBookmark 1 1 typePatch).2.resources.map (fun r => r.type))
      = ["note"] ∧
    (updateResource dbBookmark 1 1 typePatch).1 =
      Outcome.okResource (applyResourcePatch bookmarkRes typePatch) := by
  refine ⟨rfl, ?_, ?_⟩ <;> decide

/-- C4 (amended): the update path treats `type` like any other rest-spread
field — a successful update stores exactly the patch's `type` when one is
carried (and keeps the old type when none is), and a patch whose `type` is a
non-empty string outside the closed set is rejected by schema validation
with the enum message. -/
theorem c4_type_change_applied_not_rejected (db : DB) (uid rid : Nat)
    (patch : UpdateResourcePatch) (r0 : Resource)
    (hr : findResource db rid uid = some r0) :
    (∀ r', (updateResource db uid rid patch).1 = Outcome.okResource r' →
       r'.type = patch.type.getD r0.type) ∧
    (∀ t, patch.type = some t → t ∉ RESOURCE_TYPES → t ≠ "" → patch.folderId = none →
       (updateResource db uid rid patch).1 =
         Outcome.validationFailed (validateResource (applyResourcePatch r0 patch)) ∧
       "Invalid resource type. Must be: bookmark, prompt, snippet, document, or note"
         ∈ validateResource (applyResourcePatch r0 patch)) := by
  constructor
  · intro r' hok
    obtain ⟨r1, hty, -, heq⟩ := updateResource_ok_applies db uid rid patch r0 r' hr hok
    rw [heq]
    cases htp : patch.type <;> simp [applyResourcePatch, htp, hty]
  · intro t ht hnot hne hfol
    have htype : (applyResourcePatch r0 patch).type = t := by
      simp [applyResourcePatch, ht]
    have hcont : RESOURCE_TYPES.contains t = false := by
      cases hc : RESOURCE_TYPES.contains t
      · rfl
      · exact absurd (List.elem_iff.mp hc) hnot
    have hmem : "Invalid resource type. Must be: bookmark, prompt, snippet, document, or note"
        ∈ validateResource (applyResourcePatch r0 patch) := by
      unfold validateResource
      rw [htype]
      simp [List.mem_append, hcont, hne, hnot]
    have hnonempty : validateResource (applyResourcePatch r0 patch) ≠ [] := by
      intro h0
      rw [h0] at hmem
      exact absurd hmem (List.not_mem_nil _)
    refine ⟨?_, hmem⟩
    rcases hval : validateResource (applyResourcePatch r0 patch) with _ | ⟨e, es⟩
    · exact absurd hval hnonempty
    · simp [updateResource, hr, hfol, hval]

/-- C4 witness: updating the stored bookmark with the out-of-set type `zzz`
is rejected by validation with the enum message. -/
theorem c4_witness :
    (updateResource dbBookmark 1 1 badTypePatch).1 =
      Outcome.validationFailed (validateResource (applyResourcePatch bookmarkRes badTypePatch)) ∧
    "Invalid resource type. Must be: bookmark, prompt, snippet, document, or note"
      ∈ validateResource (applyResourcePatch bookmarkRes badTypePatch) :=
  (c4_type_change_applied_not_rejected dbBookmark 1 1 badTypePatch bookmarkRes
    (by decide)).2 "zzz" rfl (by decide) (by decide) rfl

/-! ### C5 — tags are normalized but not de-duplicated -/

/-- C5 counterexample: creating a resource with tags `["React", "react "]`
stores `["react", "react"]` — normalized, but with a duplicate, refuting the
de-duplication half of the claim. -/
theorem c5_counterexample :
    ((createResource dbEmpty 1 reqTagged 1 0).2.resources.map (fun r => r.tags))
      = [["react", "react"]] ∧
    ¬ (["react", "react"] : List String).Nodup := by
  refine ⟨?_, ?_⟩ <;> decide

/-- C5 (amended): on both write paths every stored tag is the trim-lowercase
normalization of the corresponding input element, and the stored list keeps
exactly one entry per input element — equal-after-normalization inputs are
stored as duplicates, never merged. -/
theorem c5_tags_normalized_not_deduped (db : DB) (uid rid newId now : Nat)
    (req : CreateResourceReq) (patch : UpdateResourcePatch) (r0 : Resource)
    (hr : findResource db rid uid = some r0) :
    (∀ r', (createResource db uid req newId now).1 = Outcome.okResource r' →
       r'.tags = (req.tags.getD []).map normalizeTag ∧
       r'.tags.length = (req.tags.getD []).length) ∧
    (∀ ts r', patch.tags = some ts →
       (updateResource db uid rid patch).1 = Outcome.okResource r' →
       r'.tags = ts.map normalizeTag ∧ r'.tags.length = ts.length) := by
  constructor
  · intro r' hok
    have heq := createResource_ok_builds db uid req newId now r' hok
    rw [heq]
    exact ⟨rfl, by simp [buildResource]⟩
  · intro ts r' hts hok
    obtain ⟨r1, -, -, heq⟩ := updateResource_ok_applies db uid rid patch r0 r' hr hok
    rw [heq]
    constructor
    · simp [applyResourcePatch, hts]
    · simp [applyResourcePatch, hts]

/-- C5 witness: the concrete tagged create stores the normalization of each
input element, one entry per element. -/
theorem c5_witness :
    (createResource dbBookmark 1 reqTagged 2 0).1 =
      Outcome.okResource (buildResource 1 reqTagged 2 0) ∧
    (buildResource 1 reqTagged 2 0).tags = (reqTagged.tags.getD []).map normalizeTag :=
  ⟨by decide,
   ((c5_tags_normalized_not_deduped dbBookmark 1 1 2 0 reqTagged {} bookmarkRes
      (by decide)).1 (buildResource 1 reqTagged 2 0) (by decide)).1⟩

/-! ### C6 — a bookmark with `url` absent is accepted (code bug) -/

/-- C6: Mongoose skips custom validators on undefined values, so creating a
bookmark whose body carries no `url` key at all sails through validation and
is stored with no URL — contradicting the model's own message (`URL is
required for bookmarks`) and the spec, which demand a `ValidationError` when
a required type-specific field is absent.  (A present-but-empty `url` is
still rejected, and an out-of-set type still fails the explicit type check.) -/
theorem c6_bookmark_missing_url_accepted :
    (createResource dbEmpty 1 reqBookmarkNoUrl 1 0).1 =
      Outcome.okResource (buildResource 1 reqBookmarkNoUrl 1 0) ∧
    (buildResource 1 reqBookmarkNoUrl 1 0).url = none ∧
    validateResource (buildResource 1 reqBookmarkNoUrl 1 0) = [] ∧
    (createResource dbEmpty 1 { reqBookmarkNoUrl with url := some "" } 1 0).1 =
      Outcome.validationFailed ["URL is required for bookmarks"] ∧
    (createResource dbEmpty 1 { reqBookmarkNoUrl with type := "video" } 1 0).1 =
      Outcome.invalidType
        "Invalid resource type. Must be one of: bookmark, prompt, snippet, document, note" := by
  refine ⟨?_, rfl, ?_, ?_, ?_⟩ <;> decide

/-! ### C8 — one filter drives slice, total and pages -/

theorem lt_div_succ_mul (a b : Nat) (hb : 0 < b) : a < (a / b + 1) * b := by
  rw [Nat.add_mul, one_mul]
  have h1 := Nat.div_add_mod a b
  have h2 := Nat.mod_lt a hb
  calc a = b * (a / b) + a % b := h1.symm
    _ < b * (a / b) + b := by omega
    _ = a / b * b + b := by rw [Nat.mul_comm]

theorem pages_bounds (t L : Nat) (hL : 1 ≤ L) :
    t ≤ ((t + L - 1) / L) * L ∧ ((t + L - 1) / L) * L < t + L := by
  constructor
  · by_cases ht : t = 0
    · subst ht
      exact Nat.zero_le _
    · have h1 : t + L - 1 = (t - 1) + L := by omega
      rw [h1, Nat.add_div_right _ hL]
      exact Nat.le_of_pred_lt (lt_div_succ_mul (t - 1) L hL)
  · exact Nat.lt_of_le_of_lt (Nat.div_mul_le_self (t + L - 1) L) (by omega)

/-- C8: for every filter specification and `page ≥ 1`, `limit ≥ 1`, the
query result's `total` is the number of resources matching the filter with no
pagination, the returned slice is `drop ((page-1)·limit)` then `take limit`
of the one filtered ordered set (so element `i` of the page sits at absolute
position `(page-1)·limit + i`), every returned resource satisfies that same
filter, and `pages` is exactly `⌈total / limit⌉` (characterized by
`total ≤ pages·limit < total + limit`). -/
theorem c8_pagination_from_one_filter (db : DB) (uid : Nat) (q : ResourceQuery)
    (tm : Resource → String → Bool) (score : Resource → Nat)
    (_hpage : 1 ≤ q.page) (hlimit : 1 ≤ q.limit) :
    (getResources db uid q tm score).total =
      (db.resources.filter (matchesFilter tm (buildFilter uid q))).length ∧
    (filteredSorted db uid q tm score).length = (getResources db uid q tm score).total ∧
    (getResources db uid q tm score).resources =
      ((filteredSorted db uid q tm score).drop ((q.page - 1) * q.limit)).take q.limit ∧
    (∀ i : Nat, ∀ h2 : i < (getResources db uid q tm score).resources.length,
       ∀ h : (q.page - 1) * q.limit + i < (filteredSorted db uid q tm score).length,
       (getResources db uid q tm score).resources.get ⟨i, h2⟩ =
         (filteredSorted db uid q tm score).get ⟨(q.page - 1) * q.limit + i, h⟩) ∧
    (∀ r ∈ (getResources db uid q tm score).resources,
       matchesFilter tm (buildFilter uid q) r = true) ∧
    (getResources db uid q tm score).total ≤
      (getResources db uid q tm score).pages * q.limit ∧
    (getResources db uid q tm score).pages * q.limit <
      (getResources db uid q tm score).total + q.limit := by
  refine ⟨?_, ?_, rfl, ?_, ?_, ?_, ?_⟩
  · simp [getResources, List.countP_eq_length_filter]
  · rcases hs : q.search with _ | s <;>
      simp [filteredSorted, getResources, hs, length_sortBy, List.countP_eq_length_filter]
  · intro i h2 h
    simp only [List.get_eq_getElem]
    show (((filteredSorted db uid q tm score).drop ((q.page - 1) * q.limit)).take
        q.limit)[i] = _
    rw [List.getElem_take, List.getElem_drop]
  · intro r hr
    have hr1 : r ∈ (filteredSorted db uid q tm score).drop ((q.page - 1) * q.limit) :=
      List.take_subset _ _ hr
    have hr2 : r ∈ filteredSorted db uid q tm score := List.drop_subset _ _ hr1
    have hmem : r ∈ db.resources.filter (matchesFilter tm (buildFilter uid q)) := by
      rcases hs : q.search with _ | s <;>
        simp only [filteredSorted, hs] at hr2 <;>
        exact (mem_sortBy _ _ _).mp hr2
    exact (List.mem_filter.mp hmem).2
  · exact (pages_bounds (getResources db uid q tm score).total q.limit hlimit).1
  · exact (pages_bounds (getResources db uid q tm score).total q.limit hlimit).2

/-- C8 witness: the default query over the witness tree store returns a
`total` equal to the unpaginated match count and the drop/take page slice. -/
theorem c8_witness :
    (getResources dbTree 1 {} tmAll scoreZero).total =
      (dbTree.resources.filter (matchesFilter tmAll (buildFilter 1 {}))).length ∧
    (getResources dbTree 1 {} tmAll scoreZero).resources =
      ((filteredSorted dbTree 1 {} tmAll scoreZero).drop 0).take 50 :=
  ⟨(c8_pagination_from_one_filter dbTree 1 {} tmAll scoreZero (by decide) (by decide)).1,
   (c8_pagination_from_one_filter dbTree 1 {} tmAll scoreZero (by decide)
      (by decide)).2.2.1⟩

/-! ### C9 — the favorite filter only fires on the literal string `true` -/

/-- C9 counterexample: with one favorited resource in store, the query
`favorite=false` still returns that favorited resource — the source applies
the favorite filter only when the parameter is the string `'true'`, so
`favorite=false` does not restrict to non-favorited resources as claimed. -/
theorem c9_counterexample :
    favRes.favorite = true ∧
    (getResources dbFav 1 qFavFalse tmAll scoreZero).resources = [favRes] := by
  refine ⟨rfl, ?_⟩
  decide

/-- C9 (amended): supplying `favorite=true` restricts results to favorited
resources only; any other supplied value (including `false`) leaves the
filter without a favorite clause, identical to omitting the field. -/
theorem c9_favorite_filter_fires_only_on_true (db : DB) (uid : Nat) (q : ResourceQuery)
    (tm : Resource → String → Bool) (score : Resource → Nat) :
    (q.favorite = some "true" →
       (getResources db uid q tm score).resources.all (fun r => r.favorite) = true) ∧
    (q.favorite ≠ some "true" →
       buildFilter uid q = buildFilter uid { q with favorite := none }) := by
  constructor
  · intro hf
    rw [List.all_eq_true]
    intro r hr
    have hr1 : r ∈ (filteredSorted db uid q tm score).drop ((q.page - 1) * q.limit) :=
      List.take_subset _ _ hr
    have hr2 : r ∈ filteredSorted db uid q tm score := List.drop_subset _ _ hr1
    have hmem : r ∈ db.resources.filter (matchesFilter tm (buildFilter uid q)) := by
      rcases hs : q.search with _ | s <;>
        simp only [filteredSorted, hs] at hr2 <;>
        exact (mem_sortBy _ _ _).mp hr2
    have hmf := (List.mem_filter.mp hmem).2
    have hfav : (buildFilter uid q).favorite = some true := by simp [buildFilter, hf]
    simp only [matchesFilter, hfav, Bool.and_eq_true, beq_iff_eq] at hmf
    tauto
  · intro hf
    have hne : (q.favorite == some "true") = false := beq_eq_false_iff_ne.mpr hf
    simp [buildFilter, hne]

/-- C9 witness: with `favorite=true` supplied, every returned resource of the
one-favorite store is favorited. -/
theorem c9_witness :
    (getResources dbFav 1 qFavTrue tmAll scoreZero).resources.all
      (fun r => r.favorite) = true :=
  (c9_favorite_filter_fires_only_on_true dbFav 1 qFavTrue tmAll scoreZero).1 rfl

end Stashly
